import Mathlib

/-!
Verification of the MoltLaunch attestation registry and trust-derivation
engine, together with the SDK-side verification scoring helpers.

The on-chain enums and account shapes are translated from `src/types.ts`;
the PDA seed schedule from `src/pda.ts`; the `AgentVerifier` scoring from
the verification service source; `getTier` / `isVerified` / `SCORE_TIERS`
from `src/index.js`.  The registry state machine itself (the deployed
program's instruction handlers) is not part of this repository's sources,
so those operations are modelled from the specification (each such
definition is marked `Modelled from the spec:`).

Public keys are modelled as natural numbers, timestamps as integers, and
the attestation ledger as an explicit list of records keyed by the
(agent, authority) pair.
-/

namespace Molt

/-- Infrastructure classification derived from attestations
(`InfraType` in `src/types.ts`). -/
inductive InfraType where
  | Unknown
  | Cloud
  | TEE
  | DePIN
deriving DecidableEq, Repr

/-- The signal an attestation contributes (`SignalType` in `src/types.ts`). -/
inductive SignalType where
  | InfraCloud
  | InfraTEE
  | InfraDePIN
  | EconomicStake
  | HardwareBinding
  | General
deriving DecidableEq, Repr

/-- Authority classification (`AuthorityType` in `src/types.ts`). -/
inductive AuthorityType where
  | Single
  | MultisigMember
  | OracleOperator
  | NCNValidator
deriving DecidableEq, Repr

/-- Error taxonomy of the registry (spec section 7). -/
inductive RegistryError where
  | Unauthorized
  | ProtocolPaused
  | AlreadyInitialized
  | AlreadyExists
  | NotFound
  | AlreadyRevoked
  | AttestationAlreadyExists
  | InvalidSignalPayload
  | InvalidName
  | Expired
deriving DecidableEq, Repr

/-- Singleton protocol configuration (`ProtocolConfig` in `src/types.ts`;
the on-chain `bump` byte is irrelevant to the state machine and omitted). -/
structure ProtocolConfig where
  admin : Nat
  revocationNonce : Nat
  totalAgents : Nat
  totalAttestations : Nat
  paused : Bool
deriving DecidableEq, Repr

/-- Per-agent signal hub (`AgentIdentity` in `src/types.ts`). -/
structure AgentIdentity where
  wallet : Nat
  infraType : InfraType
  hasEconomicStake : Bool
  hasHardwareBinding : Bool
  attestationCount : Nat
  isFlagged : Bool
  trustScore : Nat
  lastVerified : Int
  nonce : Nat
  registeredAt : Int
  name : String
deriving DecidableEq, Repr

/-- Registered verifier principal (`Authority` in `src/types.ts`). -/
structure Authority where
  pubkey : Nat
  authorityType : AuthorityType
  attestationCount : Nat
  active : Bool
  addedBy : Nat
  addedAt : Int
deriving DecidableEq, Repr

/-- One attestation record per (agent, authority) pair
(`Attestation` in `src/types.ts`). -/
structure Attestation where
  agent : Nat
  authority : Nat
  authorityType : AuthorityType
  signalContributed : SignalType
  attestationHash : List Nat
  teeQuote : Option (List Nat)
  createdAt : Int
  expiresAt : Int
  revoked : Bool
deriving DecidableEq, Repr

/-- The whole registry state: the singleton config plus the three account
ledgers (spec section 3). -/
structure RegistryState where
  config : ProtocolConfig
  agents : List AgentIdentity
  authorities : List Authority
  attestations : List Attestation
deriving DecidableEq, Repr

/-- Look up the first agent record for a wallet. -/
def findAgent (w : Nat) : List AgentIdentity → Option AgentIdentity
  | [] => none
  | r :: t => if r.wallet = w then some r else findAgent w t

/-- Update the first agent record for a wallet in place. -/
def updAgent (w : Nat) (f : AgentIdentity → AgentIdentity) :
    List AgentIdentity → List AgentIdentity
  | [] => []
  | r :: t => if r.wallet = w then f r :: t else r :: updAgent w f t

/-- Look up the first authority record for a pubkey. -/
def findAuthority (p : Nat) : List Authority → Option Authority
  | [] => none
  | r :: t => if r.pubkey = p then some r else findAuthority p t

/-- Update the first authority record for a pubkey in place. -/
def updAuthority (p : Nat) (f : Authority → Authority) :
    List Authority → List Authority
  | [] => []
  | r :: t => if r.pubkey = p then f r :: t else r :: updAuthority p f t

/-- Look up the first attestation record for an (agent, authority) pair. -/
def findAtt (a b : Nat) : List Attestation → Option Attestation
  | [] => none
  | r :: t => if r.agent = a ∧ r.authority = b then some r else findAtt a b t

/-- Update the first attestation record for an (agent, authority) pair in
place. -/
def updAtt (a b : Nat) (f : Attestation → Attestation) :
    List Attestation → List Attestation
  | [] => []
  | r :: t =>
    if r.agent = a ∧ r.authority = b then f r :: t else r :: updAtt a b f t

/-- An attestation is live when it is neither revoked nor past its expiry
(spec glossary and section 3 invariant). -/
def isLive (now : Int) (r : Attestation) : Bool :=
  !r.revoked && decide (now < r.expiresAt)

/-- The live attestation set of one agent: agent-keyed, non-revoked,
non-expired records (spec section 4.5 step 1). -/
def liveSetFor (now : Int) (agent : Nat) (atts : List Attestation) :
    List Attestation :=
  atts.filter (fun r => decide (r.agent = agent) && isLive now r)

/-- Does some attestation in the list contribute the given signal? -/
def hasSignal (l : List Attestation) (st : SignalType) : Bool :=
  l.any (fun r => r.signalContributed = st)

/-- Modelled from the spec: step 2 of `refreshSignals` in the deployed
program (not in this repository's sources) — choose the highest-priority
infra signal present in the live set, priority order
TEE > DePIN > Cloud > Unknown. -/
def bestInfra (l : List Attestation) : InfraType :=
  if hasSignal l .InfraTEE then .TEE
  else if hasSignal l .InfraDePIN then .DePIN
  else if hasSignal l .InfraCloud then .Cloud
  else .Unknown

/-- Modelled from the spec: the per-category base point value of the trust
score table in the deployed program (not in this repository's sources).
The exact constants are a deployment parameter; these are chosen to
respect the spec's qualitative priorities (TEE > DePIN > Cloud). -/
def basePoints : SignalType → Nat
  | .InfraCloud => 15
  | .InfraTEE => 30
  | .InfraDePIN => 25
  | .EconomicStake => 20
  | .HardwareBinding => 15
  | .General => 5

/-- Modelled from the spec: the per-category corroboration bonus for each
additional distinct authority attesting the same category, capped at two
extra corroborations per category (diminishing returns, spec section 4.5
step 5). -/
def catPoints (c : SignalType) : Nat → Nat
  | 0 => 0
  | n + 1 => basePoints c + 5 * min n 2

/-- Number of attestations in the list contributing the given category. -/
def countCat (c : SignalType) (l : List Attestation) : Nat :=
  (l.filter (fun r => r.signalContributed = c)).length

/-- Modelled from the spec: the raw (unclamped) trust point accumulation
over the six signal categories (spec section 4.5 step 5). -/
def totalPoints (l : List Attestation) : Nat :=
  catPoints .InfraCloud (countCat .InfraCloud l) +
  catPoints .InfraTEE (countCat .InfraTEE l) +
  catPoints .InfraDePIN (countCat .InfraDePIN l) +
  catPoints .EconomicStake (countCat .EconomicStake l) +
  catPoints .HardwareBinding (countCat .HardwareBinding l) +
  catPoints .General (countCat .General l)

/-- Modelled from the spec: the derived trust score — accumulated points
clamped to [0, 100] (spec section 4.5 step 5). -/
def trustScoreOf (l : List Attestation) : Nat :=
  min (totalPoints l) 100

/-- Bound on agent names; the spec leaves the exact bound as a deployment
parameter. -/
def MAX_NAME_LEN : Nat := 32

/-- Modelled from the spec: `registerAgent` of the deployed program (not in
this repository's sources) — agent-wallet-signed one-time creation of an
AgentIdentity with zero/Unknown defaults (spec section 4.4). -/
def registerAgent (now : Int) (s : RegistryState) (name : String)
    (wallet : Nat) : Except RegistryError RegistryState :=
  if s.config.paused then .error .ProtocolPaused
  else match findAgent wallet s.agents with
    | some _ => .error .AlreadyExists
    | none =>
      if name.length = 0 ∨ MAX_NAME_LEN < name.length then .error .InvalidName
      else .ok { s with
        agents :=
          { wallet := wallet, infraType := .Unknown, hasEconomicStake := false
            hasHardwareBinding := false, attestationCount := 0
            isFlagged := false, trustScore := 0, lastVerified := 0
            nonce := 0, registeredAt := now, name := name } :: s.agents
        config := { s.config with totalAgents := s.config.totalAgents + 1 } }

/-- The attestation record written by a submission. -/
def mkAttestation (now : Int) (agent signer : Nat) (ty : AuthorityType)
    (signal : SignalType) (hash : List Nat) (expiresAt : Int)
    (teeQuote : Option (List Nat)) : Attestation :=
  { agent := agent, authority := signer, authorityType := ty
    signalContributed := signal, attestationHash := hash
    teeQuote := teeQuote, createdAt := now, expiresAt := expiresAt
    revoked := false }

/-- State after a successful submission: the attestation record is written
or overwritten under its composite key, and the three counters advance. -/
def applySubmit (s : RegistryState) (agent signer : Nat) (att : Attestation)
    (replace : Bool) : RegistryState :=
  { s with
    attestations :=
      if replace then updAtt agent signer (fun _ => att) s.attestations
      else att :: s.attestations
    authorities :=
      updAuthority signer
        (fun a => { a with attestationCount := a.attestationCount + 1 })
        s.authorities
    agents :=
      updAgent agent
        (fun a => { a with attestationCount := a.attestationCount + 1 })
        s.agents
    config :=
      { s.config with totalAttestations := s.config.totalAttestations + 1 } }

/-- Modelled from the spec: `submitAttestation` of the deployed program
(not in this repository's sources) — spec section 4.3.  Preconditions:
not paused, active authority signer, registered agent, future expiry,
non-empty/non-zero hash, teeQuote only with an InfraTEE signal.  On a
collision with a live record for the (agent, authority) pair it fails
with AttestationAlreadyExists; an expired or revoked prior record is
replaced in place under the same composite key. -/
def submitAttestation (now : Int) (s : RegistryState) (agent : Nat)
    (signal : SignalType) (hash : List Nat) (expiresAt : Int)
    (teeQuote : Option (List Nat)) (signer : Nat) :
    Except RegistryError RegistryState :=
  if s.config.paused then .error .ProtocolPaused
  else match findAuthority signer s.authorities with
    | none => .error .Unauthorized
    | some auth =>
      if !auth.active then .error .Unauthorized
      else match findAgent agent s.agents with
        | none => .error .NotFound
        | some _ =>
          if decide (expiresAt ≤ now) then .error .Expired
          else if hash.length = 0 ∨ hash.all (fun b => b = 0) then
            .error .InvalidSignalPayload
          else if teeQuote.isSome ∧ signal ≠ .InfraTEE then
            .error .InvalidSignalPayload
          else
            match findAtt agent signer s.attestations with
            | some old =>
              if isLive now old then .error .AttestationAlreadyExists
              else .ok (applySubmit s agent signer
                (mkAttestation now agent signer auth.authorityType signal
                  hash expiresAt teeQuote) true)
            | none => .ok (applySubmit s agent signer
                (mkAttestation now agent signer auth.authorityType signal
                  hash expiresAt teeQuote) false)

/-- Modelled from the spec: `revokeAttestation` of the deployed program
(not in this repository's sources) — spec section 4.3.  The record is
addressed by its (agent, authority) composite key; only the original
authority on the record may revoke (no third party, including the admin);
revocation flips `revoked` exactly once and does not itself refresh. -/
def revokeAttestation (s : RegistryState) (agent authorityKey signer : Nat) :
    Except RegistryError RegistryState :=
  if s.config.paused then .error .ProtocolPaused
  else match findAtt agent authorityKey s.attestations with
    | none => .error .NotFound
    | some r =>
      if r.authority ≠ signer then .error .Unauthorized
      else if r.revoked then .error .AlreadyRevoked
      else .ok { s with
        attestations :=
          updAtt agent authorityKey (fun a => { a with revoked := true })
            s.attestations }

/-- Modelled from the spec: the field update applied to an agent identity
by one refresh, given the live set (spec section 4.5 steps 2-8): derived
fields recomputed, `isFlagged` untouched, `lastVerified` set to now and
the nonce advanced. -/
def refreshedAgent (live : List Attestation) (now : Int)
    (x : AgentIdentity) : AgentIdentity :=
  { x with
    infraType := bestInfra live
    hasEconomicStake := hasSignal live .EconomicStake
    hasHardwareBinding := hasSignal live .HardwareBinding
    trustScore := trustScoreOf live
    attestationCount := live.length
    lastVerified := now
    nonce := x.nonce + 1 }

/-- Modelled from the spec: `refreshSignals` of the deployed program (not
in this repository's sources) — the permissionless signal derivation of
spec section 4.5: recompute the derived fields from the live set. -/
def refreshSignals (now : Int) (s : RegistryState) (agent : Nat) :
    Except RegistryError RegistryState :=
  if s.config.paused then .error .ProtocolPaused
  else match findAgent agent s.agents with
    | none => .error .NotFound
    | some _ =>
      .ok { s with
        agents :=
          updAgent agent
            (refreshedAgent (liveSetFor now agent s.attestations) now)
            s.agents }

/-- Modelled from the spec: `flagAgent` of the deployed program (not in
this repository's sources) — any active authority may flag any agent
(spec section 4.4). -/
def flagAgent (s : RegistryState) (agent : Nat) (_reasonHash : List Nat)
    (signer : Nat) : Except RegistryError RegistryState :=
  if s.config.paused then .error .ProtocolPaused
  else match findAuthority signer s.authorities with
    | none => .error .Unauthorized
    | some auth =>
      if !auth.active then .error .Unauthorized
      else match findAgent agent s.agents with
        | none => .error .NotFound
        | some _ => .ok { s with
            agents :=
              updAgent agent
                (fun a => { a with isFlagged := true, nonce := a.nonce + 1 })
                s.agents }

/-- Modelled from the spec: `unflagAgent` of the deployed program (not in
this repository's sources) — admin-only clearing of the flag (spec
section 4.4). -/
def unflagAgent (s : RegistryState) (agent : Nat) (signer : Nat) :
    Except RegistryError RegistryState :=
  if s.config.paused then .error .ProtocolPaused
  else if signer ≠ s.config.admin then .error .Unauthorized
  else match findAgent agent s.agents with
    | none => .error .NotFound
    | some _ => .ok { s with
        agents :=
          updAgent agent
            (fun a => { a with isFlagged := false, nonce := a.nonce + 1 })
            s.agents }

/-- Modelled from the spec: `addAuthority` of the deployed program (not in
this repository's sources) — admin-only creation of an authority record
(spec section 4.1). -/
def addAuthority (now : Int) (s : RegistryState) (pk : Nat)
    (ty : AuthorityType) (signer : Nat) : Except RegistryError RegistryState :=
  if s.config.paused then .error .ProtocolPaused
  else if signer ≠ s.config.admin then .error .Unauthorized
  else match findAuthority pk s.authorities with
    | some _ => .error .AlreadyExists
    | none => .ok { s with
        authorities :=
          { pubkey := pk, authorityType := ty, attestationCount := 0
            active := true, addedBy := signer, addedAt := now }
            :: s.authorities }

/-- Modelled from the spec: `removeAuthority` of the deployed program (not
in this repository's sources) — admin-only deactivation; the record
persists for the audit trail (spec section 3). -/
def removeAuthority (s : RegistryState) (pk : Nat) (signer : Nat) :
    Except RegistryError RegistryState :=
  if s.config.paused then .error .ProtocolPaused
  else if signer ≠ s.config.admin then .error .Unauthorized
  else match findAuthority pk s.authorities with
    | none => .error .NotFound
    | some _ => .ok { s with
        authorities :=
          updAuthority pk (fun a => { a with active := false }) s.authorities }

/-- Modelled from the spec: `setPaused` of the deployed program (not in
this repository's sources) — admin-only, never blocked by the pause flag
itself (spec section 4.1). -/
def setPaused (s : RegistryState) (b : Bool) (signer : Nat) :
    Except RegistryError RegistryState :=
  if signer ≠ s.config.admin then .error .Unauthorized
  else .ok { s with config := { s.config with paused := b } }

/-- Modelled from the spec: `transferAdmin` of the deployed program (not in
this repository's sources) — admin-only, immediate, never blocked by the
pause flag (spec section 4.1). -/
def transferAdmin (s : RegistryState) (newAdmin : Nat) (signer : Nat) :
    Except RegistryError RegistryState :=
  if signer ≠ s.config.admin then .error .Unauthorized
  else .ok { s with config := { s.config with admin := newAdmin } }

/-- Read operation: fetch the protocol config (always succeeds). -/
def getConfig (s : RegistryState) : ProtocolConfig :=
  s.config

/-- Read operation: fetch an agent's signal hub. -/
def getAgentIdentity (s : RegistryState) (w : Nat) : Option AgentIdentity :=
  findAgent w s.agents

/-- Read operation: fetch an authority record. -/
def getAuthority (s : RegistryState) (p : Nat) : Option Authority :=
  findAuthority p s.authorities

/-- Read operation: fetch an attestation record by its composite key. -/
def getAttestation (s : RegistryState) (a b : Nat) : Option Attestation :=
  findAtt a b s.attestations

/-- The operation surface of the registry (spec section 6). -/
inductive Op where
  | registerAgent (name : String) (wallet : Nat)
  | submitAttestation (agent : Nat) (signal : SignalType) (hash : List Nat)
      (expiresAt : Int) (teeQuote : Option (List Nat)) (signer : Nat)
  | revokeAttestation (agent : Nat) (signer : Nat)
  | refreshSignals (agent : Nat)
  | flagAgent (agent : Nat) (reasonHash : List Nat) (signer : Nat)
  | unflagAgent (agent : Nat) (signer : Nat)
  | addAuthority (pk : Nat) (ty : AuthorityType) (signer : Nat)
  | removeAuthority (pk : Nat) (signer : Nat)
  | setPaused (b : Bool) (signer : Nat)
  | transferAdmin (newAdmin : Nat) (signer : Nat)
deriving DecidableEq, Repr

/-- Dispatch one operation at a given ledger time. -/
def step (now : Int) (s : RegistryState) : Op →
    Except RegistryError RegistryState
  | .registerAgent name wallet => registerAgent now s name wallet
  | .submitAttestation agent signal hash expiresAt teeQuote signer =>
      submitAttestation now s agent signal hash expiresAt teeQuote signer
  | .revokeAttestation agent signer => revokeAttestation s agent signer signer
  | .refreshSignals agent => refreshSignals now s agent
  | .flagAgent agent reasonHash signer => flagAgent s agent reasonHash signer
  | .unflagAgent agent signer => unflagAgent s agent signer
  | .addAuthority pk ty signer => addAuthority now s pk ty signer
  | .removeAuthority pk signer => removeAuthority s pk signer
  | .setPaused b signer => setPaused s b signer
  | .transferAdmin newAdmin signer => transferAdmin s newAdmin signer

/-- Run a sequence of timestamped operations, stopping at the first
failure (each operation is an atomic commit, spec section 5). -/
def runOps (s : RegistryState) : List (Int × Op) →
    Except RegistryError RegistryState
  | [] => .ok s
  | (now, o) :: rest =>
    match step now s o with
    | .ok s₁ => runOps s₁ rest
    | .error e => .error e

/-- The operations exempt from the pause gate (spec section 4.1: `setPaused`
itself and `transferAdmin`). -/
def pauseExempt : Op → Bool
  | .setPaused _ _ => true
  | .transferAdmin _ _ => true
  | _ => false

/-- The fixed program id from `src/types.ts` (`MOLTLAUNCH_PROGRAM_ID`). -/
def MOLTLAUNCH_PROGRAM_ID : String :=
  "6AZSAhq4iJTwCfGEVssoa1p3GnBqGkbcQ1iDdP1U1pSb"

/-- The PDA seed tags from `src/types.ts` (`SEEDS`). -/
structure SeedTable where
  CONFIG : String
  AGENT : String
  AUTHORITY : String
  ATTESTATION : String
deriving DecidableEq, Repr

/-- The concrete seed constants from `src/types.ts`. -/
def SEEDS : SeedTable :=
  { CONFIG := "moltlaunch", AGENT := "agent", AUTHORITY := "authority"
    ATTESTATION := "attestation" }

/-- A single PDA seed: a byte sequence. -/
def Seed : Type := List Nat

/-- UTF-8-agnostic byte view of a seed tag (the tags are ASCII, so the
code-point view coincides with `Buffer.from`). -/
def strBytes (s : String) : Seed :=
  s.toList.map Char.toNat

/-- The address-derivation primitive of the platform
(`PublicKey.findProgramAddressSync`), abstracted as a function from the
seed list and program id to an address. -/
def PdaHash : Type := List Seed → String → Nat

/-- `findConfigPda` from `src/pda.ts`: seeds `["moltlaunch"]`. -/
def findConfigPda (H : PdaHash) : Nat :=
  H [strBytes SEEDS.CONFIG] MOLTLAUNCH_PROGRAM_ID

/-- `findAgentPda` from `src/pda.ts`: seeds `["agent", wallet]`. -/
def findAgentPda (H : PdaHash) (wallet : Seed) : Nat :=
  H [strBytes SEEDS.AGENT, wallet] MOLTLAUNCH_PROGRAM_ID

/-- `findAuthorityPda` from `src/pda.ts`: seeds `["authority", pubkey]`. -/
def findAuthorityPda (H : PdaHash) (authorityPubkey : Seed) : Nat :=
  H [strBytes SEEDS.AUTHORITY, authorityPubkey] MOLTLAUNCH_PROGRAM_ID

/-- `findAttestationPda` from `src/pda.ts`: seeds
`["attestation", agent_wallet, authority_pubkey]`. -/
def findAttestationPda (H : PdaHash) (agentWallet authorityPubkey : Seed) :
    Nat :=
  H [strBytes SEEDS.ATTESTATION, agentWallet, authorityPubkey]
    MOLTLAUNCH_PROGRAM_ID

/-- The five boolean checks of the SDK verification service
(`VerificationResult.checks` in the SDK types). -/
structure VChecks where
  apiLiveness : Bool
  apiResponsive : Bool
  githubExists : Bool
  capabilitiesVerified : Bool
  uniqueIdentity : Bool
deriving DecidableEq, Repr

/-- The result shape returned by `AgentVerifier.verify` (timestamp and
network details elided). -/
structure VerifyResult where
  passed : Bool
  score : Nat
  checks : VChecks
  attestation : Option String
deriving DecidableEq, Repr

namespace AgentVerifier

/-- `AgentVerifier.calculateScore` from the verification service source:
sum of the fixed weights of the checks that passed (apiLiveness 30,
apiResponsive 20, githubExists 15, capabilitiesVerified 25,
uniqueIdentity 10). -/
def calculateScore (c : VChecks) : Nat :=
  (if c.apiLiveness then 30 else 0) +
  (if c.apiResponsive then 20 else 0) +
  (if c.githubExists then 15 else 0) +
  (if c.capabilitiesVerified then 25 else 0) +
  (if c.uniqueIdentity then 10 else 0)

/-- The checks assembled by `AgentVerifier.verify`: the network outcomes
are inputs (liveness, responsiveness, github activity, capability probe);
capability verification is attempted only when the liveness check passed,
and the unique-identity check is a placeholder that always passes. -/
def assembleChecks (liveness responsive github capOk : Bool) : VChecks :=
  { apiLiveness := liveness, apiResponsive := responsive
    githubExists := github, capabilitiesVerified := liveness && capOk
    uniqueIdentity := true }

/-- The pure tail of `AgentVerifier.verify` (the score, pass flag and
attestation assembly); `att` stands for the string produced by
`generateAttestation`. -/
def verify (liveness responsive github capOk : Bool) (att : String) :
    VerifyResult :=
  let checks := assembleChecks liveness responsive github capOk
  let score := calculateScore checks
  let passed : Bool := decide (60 ≤ score)
  { passed := passed, score := score, checks := checks
    attestation := if passed then some att else none }

end AgentVerifier

/-- The four score tiers of `src/index.js`. -/
inductive Tier where
  | excellent
  | good
  | needs_work
  | poor
deriving DecidableEq, Repr

/-- One row of `SCORE_TIERS` in `src/index.js`. -/
structure TierRange where
  min : Nat
  max : Nat
  label : String
deriving DecidableEq, Repr

/-- `SCORE_TIERS` from `src/index.js`. -/
def SCORE_TIERS : Tier → TierRange
  | .excellent => { min := 80, max := 100, label := "Production Ready" }
  | .good => { min := 60, max := 79, label := "Verified" }
  | .needs_work => { min := 40, max := 59, label := "Needs Improvement" }
  | .poor => { min := 0, max := 39, label := "Not Ready" }

/-- `getTier` from `src/index.js`. -/
def getTier (score : Nat) : Tier :=
  if 80 ≤ score then .excellent
  else if 60 ≤ score then .good
  else if 40 ≤ score then .needs_work
  else .poor

/-- `isVerified` from `src/index.js`. -/
def isVerified (score : Nat) : Bool :=
  decide (60 ≤ score)

/-! Concrete probe data evaluated by the witness theorems. -/

/-- Concrete probe authority. -/
def wAuth : Authority :=
  { pubkey := 1, authorityType := .Single, attestationCount := 0
    active := true, addedBy := 0, addedAt := 0 }

/-- Concrete probe agent identity. -/
def wAgentId : AgentIdentity :=
  { wallet := 2, infraType := .Unknown, hasEconomicStake := false
    hasHardwareBinding := false, attestationCount := 0, isFlagged := false
    trustScore := 0, lastVerified := 0, nonce := 0, registeredAt := 0
    name := "bot-1" }

/-- Concrete probe attestation: a live TEE attestation on agent 2 by
authority 1. -/
def wAttTEE : Attestation :=
  { agent := 2, authority := 1, authorityType := .Single
    signalContributed := .InfraTEE, attestationHash := [7]
    teeQuote := none, createdAt := 0, expiresAt := 100, revoked := false }

/-- Concrete probe attestation: an economic-stake attestation on agent 2 by
authority 3. -/
def wAttStake : Attestation :=
  { agent := 2, authority := 3, authorityType := .Single
    signalContributed := .EconomicStake, attestationHash := [1]
    teeQuote := none, createdAt := 0, expiresAt := 100, revoked := false }

/-- Concrete probe registry state: one agent, one authority, one live TEE
attestation. -/
def wState : RegistryState :=
  { config := { admin := 0, revocationNonce := 0, totalAgents := 1
                totalAttestations := 1, paused := false }
    agents := [wAgentId], authorities := [wAuth]
    attestations := [wAttTEE] }

/-- Concrete probe registry state: as `wState` but paused. -/
def wPaused : RegistryState :=
  { wState with config := { wState.config with paused := true } }

/-- Concrete probe operation sequence: create an agent, attest it, revoke
the attestation, and deactivate the authority. -/
def wOps : List (Int × Op) :=
  [(0, .registerAgent "x" 9),
   (1, .submitAttestation 9 .InfraCloud [1] 50 none 1),
   (2, .revokeAttestation 9 1),
   (3, .removeAuthority 1 0)]

/-- Concrete probe registry state: `wState` after one refresh of agent 2 at
time 5. -/
def wState1 : RegistryState :=
  { wState with
    agents :=
      updAgent 2 (refreshedAgent (liveSetFor 5 2 wState.attestations) 5)
        wState.agents }

/-! Helper lemmas about the keyed ledgers. -/

theorem findAgent_keys {w : Nat} {l : List AgentIdentity} {r : AgentIdentity}
    (h : findAgent w l = some r) : r.wallet = w := by
  induction l with
  | nil => simp [findAgent] at h
  | cons x t ih =>
    by_cases hx : x.wallet = w
    · simp [findAgent, hx] at h
      subst h; exact hx
    · simp [findAgent, hx] at h
      exact ih h

theorem findAgent_updAgent_self {w : Nat} {l : List AgentIdentity}
    {r : AgentIdentity} (f : AgentIdentity → AgentIdentity)
    (hfw : ∀ x, x.wallet = w → (f x).wallet = w)
    (h : findAgent w l = some r) :
    findAgent w (updAgent w f l) = some (f r) := by
  induction l with
  | nil => simp [findAgent] at h
  | cons x t ih =>
    by_cases hx : x.wallet = w
    · simp [findAgent, hx] at h
      subst h
      simp [updAgent, findAgent, hx, hfw x hx]
    · simp [findAgent, updAgent, hx] at h ⊢
      exact ih h

theorem findAtt_keys {a b : Nat} {l : List Attestation} {r : Attestation}
    (h : findAtt a b l = some r) : r.agent = a ∧ r.authority = b := by
  induction l with
  | nil => simp [findAtt] at h
  | cons x t ih =>
    by_cases hx : x.agent = a ∧ x.authority = b
    · simp [findAtt, hx] at h
      subst h; exact hx
    · simp [findAtt, hx] at h
      exact ih h

theorem findAtt_updAtt_self {a b : Nat} {l : List Attestation}
    {r : Attestation} (f : Attestation → Attestation)
    (hf : ∀ x, x.agent = a → x.authority = b →
      (f x).agent = a ∧ (f x).authority = b)
    (h : findAtt a b l = some r) :
    findAtt a b (updAtt a b f l) = some (f r) := by
  induction l with
  | nil => simp [findAtt] at h
  | cons x t ih =>
    by_cases hx : x.agent = a ∧ x.authority = b
    · simp [findAtt, hx] at h
      subst h
      simp [updAtt, findAtt, hx, (hf x hx.1 hx.2).1, (hf x hx.1 hx.2).2]
    · simp [findAtt, updAtt, hx] at h ⊢
      exact ih h

theorem findAtt_updAtt_ne {a b p q : Nat} (f : Attestation → Attestation)
    (hf : ∀ r, r.agent = a → r.authority = b →
      (f r).agent = a ∧ (f r).authority = b)
    (hne : ¬(p = a ∧ q = b)) (l : List Attestation) :
    findAtt p q (updAtt a b f l) = findAtt p q l := by
  induction l with
  | nil => simp [updAtt]
  | cons x t ih =>
    by_cases hx : x.agent = a ∧ x.authority = b
    · have hfx := hf x hx.1 hx.2
      have h1 : ¬((f x).agent = p ∧ (f x).authority = q) := by
        rintro ⟨h1, h2⟩
        exact hne ⟨by rw [← h1, hfx.1], by rw [← h2, hfx.2]⟩
      have h2 : ¬(x.agent = p ∧ x.authority = q) := by
        rintro ⟨h1, h2⟩
        exact hne ⟨by rw [← h1, hx.1], by rw [← h2, hx.2]⟩
      have h3 : ¬(a = p ∧ b = q) := by
        rintro ⟨h1, h2⟩
        exact hne ⟨h1.symm, h2.symm⟩
      simp [updAtt, hx, findAtt, h1, h2, h3]
    · simp [updAtt, hx, findAtt]
      by_cases hxp : x.agent = p ∧ x.authority = q
      · simp [hxp]
      · simp [hxp, ih]

/-! Helper lemmas about the derivation engine. -/

theorem catPoints_mono (c : SignalType) {m n : Nat} (h : m ≤ n) :
    catPoints c m ≤ catPoints c n := by
  cases m with
  | zero => simp [catPoints]
  | succ m' =>
    cases n with
    | zero => omega
    | succ n' =>
      simp only [catPoints]
      have : min m' 2 ≤ min n' 2 := by omega
      omega

theorem countCat_cons (c : SignalType) (x : Attestation)
    (l : List Attestation) :
    countCat c (x :: l) =
      countCat c l + (if x.signalContributed = c then 1 else 0) := by
  by_cases h : x.signalContributed = c <;>
    simp [countCat, h, List.filter]

theorem countCat_le_cons (c : SignalType) (x : Attestation)
    (l : List Attestation) : countCat c l ≤ countCat c (x :: l) := by
  rw [countCat_cons]; omega

theorem totalPoints_le_cons (x : Attestation) (l : List Attestation) :
    totalPoints l ≤ totalPoints (x :: l) := by
  unfold totalPoints
  have h1 := catPoints_mono .InfraCloud (countCat_le_cons .InfraCloud x l)
  have h2 := catPoints_mono .InfraTEE (countCat_le_cons .InfraTEE x l)
  have h3 := catPoints_mono .InfraDePIN (countCat_le_cons .InfraDePIN x l)
  have h4 := catPoints_mono .EconomicStake (countCat_le_cons .EconomicStake x l)
  have h5 :=
    catPoints_mono .HardwareBinding (countCat_le_cons .HardwareBinding x l)
  have h6 := catPoints_mono .General (countCat_le_cons .General x l)
  omega

theorem trustScoreOf_le_100 (l : List Attestation) : trustScoreOf l ≤ 100 :=
  Nat.min_le_right _ _

theorem trustScoreOf_le_cons (x : Attestation) (l : List Attestation) :
    trustScoreOf l ≤ trustScoreOf (x :: l) := by
  unfold trustScoreOf
  have := totalPoints_le_cons x l
  omega

theorem trustScoreOf_nil : trustScoreOf [] = 0 := by
  decide

/-- Shape of a successful refresh. -/
theorem refreshSignals_ok_intro (now : Int) (s : RegistryState) (a : Nat)
    (id₀ : AgentIdentity) (hp : s.config.paused = false)
    (hreg : findAgent a s.agents = some id₀) :
    refreshSignals now s a = .ok { s with
      agents :=
        updAgent a (refreshedAgent (liveSetFor now a s.attestations) now)
          s.agents } := by
  unfold refreshSignals
  rw [hp, hreg]
  rfl

/-- Inversion of a successful refresh. -/
theorem refreshSignals_ok_elim {now : Int} {s s₁ : RegistryState} {a : Nat}
    (h : refreshSignals now s a = .ok s₁) :
    s.config.paused = false ∧
    ∃ id₀, findAgent a s.agents = some id₀ ∧
      s₁ = { s with
        agents :=
          updAgent a (refreshedAgent (liveSetFor now a s.attestations) now)
            s.agents } := by
  unfold refreshSignals at h
  cases hb : s.config.paused with
  | true => rw [hb] at h; simp at h
  | false =>
    rw [hb] at h
    cases hreg : findAgent a s.agents with
    | none => rw [hreg] at h; simp at h
    | some id₀ =>
      rw [hreg] at h
      simp only [Bool.false_eq_true, if_false] at h
      exact ⟨rfl, id₀, rfl, (Except.ok.inj h).symm⟩

/-- Reduction of `submitAttestation` through its preconditions: with the
pause, authority, agent, expiry, hash and teeQuote checks all passing,
the outcome depends only on the prior record under the composite key. -/
theorem submitAttestation_reduce (now : Int) (s : RegistryState)
    (agent : Nat) (signal : SignalType) (hash : List Nat) (expiresAt : Int)
    (teeQuote : Option (List Nat)) (signer : Nat) (auth : Authority)
    (agId : AgentIdentity) (hp : s.config.paused = false)
    (hauth : findAuthority signer s.authorities = some auth)
    (hact : auth.active = true)
    (hagent : findAgent agent s.agents = some agId)
    (hexp : now < expiresAt)
    (hhash : ¬(hash.length = 0 ∨ hash.all (fun b => b = 0)))
    (htee : ¬(teeQuote.isSome ∧ signal ≠ .InfraTEE)) :
    submitAttestation now s agent signal hash expiresAt teeQuote signer =
      match findAtt agent signer s.attestations with
      | some old =>
        if isLive now old then .error .AttestationAlreadyExists
        else .ok (applySubmit s agent signer
          (mkAttestation now agent signer auth.authorityType signal hash
            expiresAt teeQuote) true)
      | none => .ok (applySubmit s agent signer
          (mkAttestation now agent signer auth.authorityType signal hash
            expiresAt teeQuote) false) := by
  unfold submitAttestation
  rw [hp, hauth, hagent]
  simp only [hact, Bool.not_true, Bool.false_eq_true, if_false,
    decide_eq_false (not_le.mpr hexp), if_neg hhash, if_neg htee]

/-- Inversion of a successful revocation. -/
theorem revokeAttestation_ok_elim {s s₁ : RegistryState}
    {agent akey signer : Nat}
    (h : revokeAttestation s agent akey signer = .ok s₁) :
    s.config.paused = false ∧
    ∃ r, findAtt agent akey s.attestations = some r ∧
      r.authority = signer ∧ r.revoked = false ∧
      s₁ = { s with
        attestations :=
          updAtt agent akey (fun a => { a with revoked := true })
            s.attestations } := by
  unfold revokeAttestation at h
  cases hb : s.config.paused with
  | true => rw [hb] at h; simp at h
  | false =>
    rw [hb] at h
    cases hr : findAtt agent akey s.attestations with
    | none => rw [hr] at h; simp at h
    | some r =>
      rw [hr] at h
      simp only [Bool.false_eq_true, if_false] at h
      by_cases hod : r.authority = signer
      · rw [if_neg (fun hn => hn hod)] at h
        cases hrev : r.revoked with
        | true => rw [hrev] at h; simp at h
        | false =>
          rw [hrev] at h
          simp only [Bool.false_eq_true, if_false] at h
          exact ⟨rfl, r, rfl, hod, hrev, (Except.ok.inj h).symm⟩
      · rw [if_pos hod] at h
        simp at h

/-- No single operation decreases either protocol counter. -/
theorem step_counters {now : Int} {s s' : RegistryState} {o : Op}
    (h : step now s o = .ok s') :
    s.config.totalAgents ≤ s'.config.totalAgents ∧
    s.config.totalAttestations ≤ s'.config.totalAttestations := by
  cases o <;>
    simp only [step, registerAgent, submitAttestation, revokeAttestation,
      refreshSignals, flagAgent, unflagAgent, addAuthority, removeAuthority,
      setPaused, transferAdmin] at h <;>
    (repeat' split at h) <;>
    first
      | exact Except.noConfusion h
      | (injection h with h
         subst h
         constructor <;> simp [applySubmit])

/-- Infra characterization of the derivation engine: `bestInfra` returns
the highest-priority infra signal present, priority TEE > DePIN > Cloud >
Unknown. -/
theorem bestInfra_spec (l : List Attestation) :
    (bestInfra l = .TEE ↔ hasSignal l .InfraTEE = true) ∧
    (bestInfra l = .DePIN ↔
      hasSignal l .InfraTEE = false ∧ hasSignal l .InfraDePIN = true) ∧
    (bestInfra l = .Cloud ↔
      hasSignal l .InfraTEE = false ∧ hasSignal l .InfraDePIN = false ∧
      hasSignal l .InfraCloud = true) ∧
    (bestInfra l = .Unknown ↔
      hasSignal l .InfraTEE = false ∧ hasSignal l .InfraDePIN = false ∧
      hasSignal l .InfraCloud = false) := by
  cases hT : hasSignal l .InfraTEE <;>
    cases hD : hasSignal l .InfraDePIN <;>
      cases hC : hasSignal l .InfraCloud <;>
        simp [bestInfra, hT, hD, hC]

/-- C1: for every agent with a registered AgentIdentity, when the protocol
is not paused, `refreshSignals` succeeds (even with zero live
attestations) and afterwards the agent's trust score is in [0, 100], its
infra type is the highest-priority infra signal present in the live
attestation set (TEE > DePIN > Cloud > Unknown), and with an empty live
set the derived fields reset to the Unknown/false/0 baseline. -/
theorem refreshSignals_bounds_and_infra (now : Int) (s : RegistryState)
    (a : Nat) (id₀ : AgentIdentity) (hp : s.config.paused = false)
    (hreg : findAgent a s.agents = some id₀) :
    ∃ s' id', refreshSignals now s a = .ok s' ∧
      findAgent a s'.agents = some id' ∧
      0 ≤ id'.trustScore ∧ id'.trustScore ≤ 100 ∧
      (id'.infraType = .TEE ↔
        hasSignal (liveSetFor now a s.attestations) .InfraTEE = true) ∧
      (id'.infraType = .DePIN ↔
        hasSignal (liveSetFor now a s.attestations) .InfraTEE = false ∧
        hasSignal (liveSetFor now a s.attestations) .InfraDePIN = true) ∧
      (id'.infraType = .Cloud ↔
        hasSignal (liveSetFor now a s.attestations) .InfraTEE = false ∧
        hasSignal (liveSetFor now a s.attestations) .InfraDePIN = false ∧
        hasSignal (liveSetFor now a s.attestations) .InfraCloud = true) ∧
      (liveSetFor now a s.attestations = [] →
        id'.infraType = .Unknown ∧ id'.hasEconomicStake = false ∧
        id'.hasHardwareBinding = false ∧ id'.trustScore = 0) := by
  refine ⟨_, refreshedAgent (liveSetFor now a s.attestations) now id₀,
    refreshSignals_ok_intro now s a id₀ hp hreg,
    findAgent_updAgent_self _ (fun x hx => hx) hreg,
    Nat.zero_le _, trustScoreOf_le_100 _,
    (bestInfra_spec _).1, (bestInfra_spec _).2.1, (bestInfra_spec _).2.2.1,
    ?_⟩
  intro h0
  refine ⟨?_, ?_, ?_, ?_⟩
  · show bestInfra (liveSetFor now a s.attestations) = .Unknown
    rw [h0]; decide
  · show hasSignal (liveSetFor now a s.attestations) .EconomicStake = false
    rw [h0]; decide
  · show hasSignal (liveSetFor now a s.attestations) .HardwareBinding = false
    rw [h0]; decide
  · show trustScoreOf (liveSetFor now a s.attestations) = 0
    rw [h0]; exact trustScoreOf_nil

/-- Witness for C1 at a concrete state: one live TEE attestation. -/
theorem refreshSignals_bounds_and_infra_witness :
    wState.config.paused = false ∧
    findAgent 2 wState.agents = some wAgentId ∧
    (∃ s' id', refreshSignals 5 wState 2 = .ok s' ∧
      findAgent 2 s'.agents = some id' ∧
      0 ≤ id'.trustScore ∧ id'.trustScore ≤ 100 ∧
      (id'.infraType = .TEE ↔
        hasSignal (liveSetFor 5 2 wState.attestations) .InfraTEE = true) ∧
      (id'.infraType = .DePIN ↔
        hasSignal (liveSetFor 5 2 wState.attestations) .InfraTEE = false ∧
        hasSignal (liveSetFor 5 2 wState.attestations) .InfraDePIN = true) ∧
      (id'.infraType = .Cloud ↔
        hasSignal (liveSetFor 5 2 wState.attestations) .InfraTEE = false ∧
        hasSignal (liveSetFor 5 2 wState.attestations) .InfraDePIN = false ∧
        hasSignal (liveSetFor 5 2 wState.attestations) .InfraCloud = true) ∧
      (liveSetFor 5 2 wState.attestations = [] →
        id'.infraType = .Unknown ∧ id'.hasEconomicStake = false ∧
        id'.hasHardwareBinding = false ∧ id'.trustScore = 0)) :=
  ⟨rfl, rfl, refreshSignals_bounds_and_infra 5 wState 2 wAgentId rfl rfl⟩

/-- C2: on an (agent, authority) collision, `submitAttestation` fails with
AttestationAlreadyExists when a live (non-revoked, non-expired) record
already exists for the pair; when the prior record is expired or revoked
the submission replaces it in place under the same composite key, leaving
every other key's record untouched; and after the authority revokes its
attestation, resubmission for the same pair succeeds. -/
theorem submitAttestation_collision (now : Int) (s : RegistryState)
    (agent : Nat) (signal : SignalType) (hash : List Nat) (expiresAt : Int)
    (teeQuote : Option (List Nat)) (signer : Nat) (auth : Authority)
    (agId : AgentIdentity) (hp : s.config.paused = false)
    (hauth : findAuthority signer s.authorities = some auth)
    (hact : auth.active = true)
    (hagent : findAgent agent s.agents = some agId)
    (hexp : now < expiresAt)
    (hhash : ¬(hash.length = 0 ∨ hash.all (fun b => b = 0)))
    (htee : ¬(teeQuote.isSome ∧ signal ≠ .InfraTEE)) :
    (∀ old, findAtt agent signer s.attestations = some old →
      isLive now old = true →
      submitAttestation now s agent signal hash expiresAt teeQuote signer =
        .error .AttestationAlreadyExists) ∧
    (∀ old, findAtt agent signer s.attestations = some old →
      isLive now old = false →
      ∃ s', submitAttestation now s agent signal hash expiresAt teeQuote
          signer = .ok s' ∧
        findAtt agent signer s'.attestations =
          some (mkAttestation now agent signer auth.authorityType signal
            hash expiresAt teeQuote) ∧
        ∀ p q, ¬(p = agent ∧ q = signer) →
          findAtt p q s'.attestations = findAtt p q s.attestations) ∧
    (∀ s₁, revokeAttestation s agent signer signer = .ok s₁ →
      ∃ s₂, submitAttestation now s₁ agent signal hash expiresAt teeQuote
        signer = .ok s₂) := by
  have hred := submitAttestation_reduce now s agent signal hash expiresAt
    teeQuote signer auth agId hp hauth hact hagent hexp hhash htee
  refine ⟨?_, ?_, ?_⟩
  · intro old hold hlive
    rw [hred, hold]
    simp [hlive]
  · intro old hold hlive
    refine ⟨applySubmit s agent signer
      (mkAttestation now agent signer auth.authorityType signal hash
        expiresAt teeQuote) true, ?_, ?_, ?_⟩
    · rw [hred, hold]
      simp [hlive]
    · exact findAtt_updAtt_self
        (fun _ => mkAttestation now agent signer auth.authorityType signal
          hash expiresAt teeQuote)
        (fun _ _ _ => ⟨rfl, rfl⟩) hold
    · intro p q hne
      exact findAtt_updAtt_ne
        (fun _ => mkAttestation now agent signer auth.authorityType signal
          hash expiresAt teeQuote)
        (fun _ _ _ => ⟨rfl, rfl⟩) hne s.attestations
  · intro s₁ hrev
    obtain ⟨hp₁, r, hr, hrauth, hrrev, rfl⟩ := revokeAttestation_ok_elim hrev
    have hfind : findAtt agent signer
        (updAtt agent signer (fun a => { a with revoked := true })
          s.attestations) = some { r with revoked := true } :=
      findAtt_updAtt_self _ (fun x hx1 hx2 => ⟨hx1, hx2⟩) hr
    have hred₁ := submitAttestation_reduce now
      { s with
        attestations :=
          updAtt agent signer (fun a => { a with revoked := true })
            s.attestations }
      agent signal hash expiresAt teeQuote signer auth agId hp hauth hact
      hagent hexp hhash htee
    refine ⟨applySubmit
      { s with
        attestations :=
          updAtt agent signer (fun a => { a with revoked := true })
            s.attestations }
      agent signer
      (mkAttestation now agent signer auth.authorityType signal hash
        expiresAt teeQuote) true, ?_⟩
    rw [hred₁]
    show (match findAtt agent signer
        (updAtt agent signer (fun a => { a with revoked := true })
          s.attestations) with
      | some old => _ | none => _) = _
    rw [hfind]
    have hl : isLive now ({ r with revoked := true } : Attestation) = false :=
      rfl
    simp only [hl, Bool.false_eq_true, if_false]

/-- Witness for C2 at a concrete state: the live TEE attestation of
`wState` blocks resubmission for the pair (2, 1), and resubmission
succeeds after revocation. -/
theorem submitAttestation_collision_witness :
    (∀ old, findAtt 2 1 wState.attestations = some old →
      isLive 5 old = true →
      submitAttestation 5 wState 2 .EconomicStake [1] 100 none 1 =
        .error .AttestationAlreadyExists) ∧
    (∀ old, findAtt 2 1 wState.attestations = some old →
      isLive 5 old = false →
      ∃ s', submitAttestation 5 wState 2 .EconomicStake [1] 100 none 1 =
          .ok s' ∧
        findAtt 2 1 s'.attestations =
          some (mkAttestation 5 2 1 wAuth.authorityType .EconomicStake
            [1] 100 none) ∧
        ∀ p q, ¬(p = 2 ∧ q = 1) →
          findAtt p q s'.attestations = findAtt p q wState.attestations) ∧
    (∀ s₁, revokeAttestation wState 2 1 1 = .ok s₁ →
      ∃ s₂, submitAttestation 5 s₁ 2 .EconomicStake [1] 100 none 1 =
        .ok s₂) :=
  submitAttestation_collision 5 wState 2 .EconomicStake [1] 100 none 1
    wAuth wAgentId rfl rfl rfl rfl (by decide) (by decide) (by decide)

/-- C3: `refreshSignals` is idempotent on the derived fields — a second
refresh at the same instant with no intervening attestation change
succeeds and leaves `trustScore` and `infraType` as after the first;
each refresh sets `lastVerified = now` and advances the nonce by one, and
`isFlagged` is untouched by both refreshes. -/
theorem refreshSignals_idempotent (now : Int) (s s₁ : RegistryState)
    (a : Nat) (h : refreshSignals now s a = .ok s₁) :
    ∃ s₂, refreshSignals now s₁ a = .ok s₂ ∧
      ∃ id₀ id₁ id₂,
        findAgent a s.agents = some id₀ ∧
        findAgent a s₁.agents = some id₁ ∧
        findAgent a s₂.agents = some id₂ ∧
        id₂.trustScore = id₁.trustScore ∧
        id₂.infraType = id₁.infraType ∧
        id₁.lastVerified = now ∧ id₂.lastVerified = now ∧
        id₁.nonce = id₀.nonce + 1 ∧ id₂.nonce = id₁.nonce + 1 ∧
        id₁.isFlagged = id₀.isFlagged ∧ id₂.isFlagged = id₁.isFlagged := by
  obtain ⟨hp, id₀, hreg, rfl⟩ := refreshSignals_ok_elim h
  have h1 :
      findAgent a
        (updAgent a (refreshedAgent (liveSetFor now a s.attestations) now)
          s.agents) =
      some (refreshedAgent (liveSetFor now a s.attestations) now id₀) :=
    findAgent_updAgent_self _ (fun x hx => hx) hreg
  exact ⟨_, refreshSignals_ok_intro now _ a _ hp h1, id₀, _, _, hreg, h1,
    findAgent_updAgent_self _ (fun x hx => hx) h1,
    rfl, rfl, rfl, rfl, rfl, rfl, rfl, rfl⟩

/-- Witness for C3 at a concrete state. -/
theorem refreshSignals_idempotent_witness :
    ∃ s₂, refreshSignals 5 wState1 2 = .ok s₂ ∧
      ∃ id₀ id₁ id₂,
        findAgent 2 wState.agents = some id₀ ∧
        findAgent 2 wState1.agents = some id₁ ∧
        findAgent 2 s₂.agents = some id₂ ∧
        id₂.trustScore = id₁.trustScore ∧
        id₂.infraType = id₁.infraType ∧
        id₁.lastVerified = 5 ∧ id₂.lastVerified = 5 ∧
        id₁.nonce = id₀.nonce + 1 ∧ id₂.nonce = id₁.nonce + 1 ∧
        id₁.isFlagged = id₀.isFlagged ∧ id₂.isFlagged = id₁.isFlagged :=
  refreshSignals_idempotent 5 wState wState1 2 (by rfl)

/-- C4: adding one more valid attestation whose signal category is not
already contributed by the live set and refreshing never decreases the
trust score, which stays clamped to [0, 100]. -/
theorem trustScore_monotone (now : Int) (s s₁ : RegistryState) (a : Nat)
    (x : Attestation) (h : refreshSignals now s a = .ok s₁)
    (hxa : x.agent = a) (hxr : x.revoked = false) (hxe : now < x.expiresAt)
    (_hnew : ∀ r ∈ liveSetFor now a s.attestations,
      r.signalContributed ≠ x.signalContributed) :
    ∃ s₂ id₁ id₂,
      refreshSignals now { s with attestations := x :: s.attestations } a =
        .ok s₂ ∧
      findAgent a s₁.agents = some id₁ ∧
      findAgent a s₂.agents = some id₂ ∧
      id₁.trustScore ≤ id₂.trustScore ∧ id₂.trustScore ≤ 100 := by
  obtain ⟨hp, id₀, hreg, rfl⟩ := refreshSignals_ok_elim h
  have hlive : liveSetFor now a (x :: s.attestations) =
      x :: liveSetFor now a s.attestations := by
    unfold liveSetFor
    rw [List.filter_cons]
    have hx : (decide (x.agent = a) && isLive now x) = true := by
      simp [hxa, isLive, hxr, hxe]
    rw [hx]
    simp
  refine ⟨_, _, _,
    refreshSignals_ok_intro now
      { s with attestations := x :: s.attestations } a id₀ hp hreg,
    findAgent_updAgent_self _ (fun y hy => hy) hreg,
    findAgent_updAgent_self _ (fun y hy => hy) hreg, ?_, ?_⟩
  · show trustScoreOf (liveSetFor now a s.attestations) ≤
      trustScoreOf (liveSetFor now a (x :: s.attestations))
    rw [hlive]
    exact trustScoreOf_le_cons x _
  · exact trustScoreOf_le_100 _

/-- C5: with the protocol paused, every state-mutating operation except
`setPaused` and `transferAdmin` fails with ProtocolPaused (the Except
model returns no successor state, so state is unchanged); reads are
untouched by the pause flag, and `setPaused false` by the admin restores
`paused = false`. -/
theorem pause_semantics (now : Int) (s : RegistryState)
    (hp : s.config.paused = true) :
    (∀ o : Op, pauseExempt o = false →
      step now s o = .error .ProtocolPaused) ∧
    (∃ s', step now s (.setPaused false s.config.admin) = .ok s' ∧
      s'.config.paused = false ∧
      (∀ w, getAgentIdentity s' w = getAgentIdentity s w) ∧
      (∀ p, getAuthority s' p = getAuthority s p) ∧
      (∀ p q, getAttestation s' p q = getAttestation s p q)) := by
  constructor
  · intro o ho
    cases o with
    | registerAgent n w => simp [step, registerAgent, hp]
    | submitAttestation a sg h e t sgn => simp [step, submitAttestation, hp]
    | revokeAttestation a sgn => simp [step, revokeAttestation, hp]
    | refreshSignals a => simp [step, refreshSignals, hp]
    | flagAgent a rh sgn => simp [step, flagAgent, hp]
    | unflagAgent a sgn => simp [step, unflagAgent, hp]
    | addAuthority pk ty sgn => simp [step, addAuthority, hp]
    | removeAuthority pk sgn => simp [step, removeAuthority, hp]
    | setPaused b sgn => simp [pauseExempt] at ho
    | transferAdmin na sgn => simp [pauseExempt] at ho
  · refine ⟨{ s with config := { s.config with paused := false } }, ?_,
      rfl, fun _ => rfl, fun _ => rfl, fun _ _ => rfl⟩
    show setPaused s false s.config.admin = _
    unfold setPaused
    rw [if_neg (fun hne => hne rfl)]

/-- Witness for C5 at a concrete paused state. -/
theorem pause_semantics_witness :
    (∀ o : Op, pauseExempt o = false →
      step 5 wPaused o = .error .ProtocolPaused) ∧
    (∃ s', step 5 wPaused (.setPaused false wPaused.config.admin) =
        .ok s' ∧
      s'.config.paused = false ∧
      (∀ w, getAgentIdentity s' w = getAgentIdentity wPaused w) ∧
      (∀ p, getAuthority s' p = getAuthority wPaused p) ∧
      (∀ p q, getAttestation s' p q = getAttestation wPaused p q)) :=
  pause_semantics 5 wPaused rfl

/-- C6: `revokeAttestation` fails with NotFound when no record exists for
the pair, with Unauthorized unless the signer is the original authority
on the record, with AlreadyRevoked when the record is already revoked,
and on success flips `revoked` to true on exactly that record, leaving
every other record, all agent identities (no refresh), and the config
untouched. -/
theorem revokeAttestation_auth (s : RegistryState)
    (agent akey signer : Nat) (hp : s.config.paused = false) :
    (findAtt agent akey s.attestations = none →
      revokeAttestation s agent akey signer = .error .NotFound) ∧
    (∀ r, findAtt agent akey s.attestations = some r →
      r.authority ≠ signer →
      revokeAttestation s agent akey signer = .error .Unauthorized) ∧
    (∀ r, findAtt agent akey s.attestations = some r →
      r.authority = signer → r.revoked = true →
      revokeAttestation s agent akey signer = .error .AlreadyRevoked) ∧
    (∀ r, findAtt agent akey s.attestations = some r →
      r.authority = signer → r.revoked = false →
      ∃ s', revokeAttestation s agent akey signer = .ok s' ∧
        findAtt agent akey s'.attestations =
          some { r with revoked := true } ∧
        (∀ p q, ¬(p = agent ∧ q = akey) →
          findAtt p q s'.attestations = findAtt p q s.attestations) ∧
        s'.agents = s.agents ∧ s'.config = s.config) := by
  refine ⟨?_, ?_, ?_, ?_⟩
  · intro hnone
    unfold revokeAttestation
    rw [hp, hnone]
    rfl
  · intro r hr hne
    unfold revokeAttestation
    rw [hp, hr]
    simp [hne]
  · intro r hr heq hrev
    unfold revokeAttestation
    rw [hp, hr]
    simp [heq, hrev]
  · intro r hr heq hrev
    refine ⟨{ s with
        attestations :=
          updAtt agent akey (fun a => { a with revoked := true })
            s.attestations }, ?_, ?_, ?_, rfl, rfl⟩
    · unfold revokeAttestation
      rw [hp, hr]
      simp [heq, hrev]
    · exact findAtt_updAtt_self (fun a => { a with revoked := true })
        (fun x h1 h2 => ⟨h1, h2⟩) hr
    · intro p q hne
      exact findAtt_updAtt_ne (fun a => { a with revoked := true })
        (fun x h1 h2 => ⟨h1, h2⟩) hne s.attestations

/-- Witness for C6 at a concrete state: the pair (2, 1) holds a live
record whose authority is signer 1. -/
theorem revokeAttestation_auth_witness :
    (findAtt 2 1 wState.attestations = none →
      revokeAttestation wState 2 1 1 = .error .NotFound) ∧
    (∀ r, findAtt 2 1 wState.attestations = some r →
      r.authority ≠ 1 →
      revokeAttestation wState 2 1 1 = .error .Unauthorized) ∧
    (∀ r, findAtt 2 1 wState.attestations = some r →
      r.authority = 1 → r.revoked = true →
      revokeAttestation wState 2 1 1 = .error .AlreadyRevoked) ∧
    (∀ r, findAtt 2 1 wState.attestations = some r →
      r.authority = 1 → r.revoked = false →
      ∃ s', revokeAttestation wState 2 1 1 = .ok s' ∧
        findAtt 2 1 s'.attestations = some { r with revoked := true } ∧
        (∀ p q, ¬(p = 2 ∧ q = 1) →
          findAtt p q s'.attestations = findAtt p q wState.attestations) ∧
        s'.agents = wState.agents ∧ s'.config = wState.config) :=
  revokeAttestation_auth wState 2 1 1 rfl

/-- C8: `totalAgents` and `totalAttestations` never decrease across any
sequence of operations: they are incremented exactly on the corresponding
creations (`registerAgent`, `submitAttestation`) and are left unchanged
by every revocation and authority removal. -/
theorem counters_monotonic :
    (∀ (ops : List (Int × Op)) (s s' : RegistryState),
      runOps s ops = .ok s' →
      s.config.totalAgents ≤ s'.config.totalAgents ∧
      s.config.totalAttestations ≤ s'.config.totalAttestations) ∧
    (∀ (now : Int) (s s' : RegistryState) (name : String) (w : Nat),
      step now s (.registerAgent name w) = .ok s' →
      s'.config.totalAgents = s.config.totalAgents + 1 ∧
      s'.config.totalAttestations = s.config.totalAttestations) ∧
    (∀ (now : Int) (s s' : RegistryState) (a : Nat) (sg : SignalType)
      (hs : List Nat) (e : Int) (t : Option (List Nat)) (sgn : Nat),
      step now s (.submitAttestation a sg hs e t sgn) = .ok s' →
      s'.config.totalAttestations = s.config.totalAttestations + 1 ∧
      s'.config.totalAgents = s.config.totalAgents) ∧
    (∀ (now : Int) (s s' : RegistryState) (a sgn : Nat),
      step now s (.revokeAttestation a sgn) = .ok s' →
      s'.config = s.config) ∧
    (∀ (now : Int) (s s' : RegistryState) (pk sgn : Nat),
      step now s (.removeAuthority pk sgn) = .ok s' →
      s'.config = s.config) := by
  refine ⟨?_, ?_, ?_, ?_, ?_⟩
  · intro ops
    induction ops with
    | nil =>
      intro s s' h
      simp only [runOps] at h
      injection h with h
      subst h
      exact ⟨le_refl _, le_refl _⟩
    | cons p rest ih =>
      obtain ⟨tn, o⟩ := p
      intro s s' h
      simp only [runOps] at h
      cases hstep : step tn s o with
      | error e => rw [hstep] at h; exact Except.noConfusion h
      | ok s₁ =>
        rw [hstep] at h
        have h₁ := step_counters hstep
        have h₂ := ih s₁ s' h
        exact ⟨le_trans h₁.1 h₂.1, le_trans h₁.2 h₂.2⟩
  · intro now s s' name w h
    simp only [step, registerAgent] at h
    (repeat' split at h) <;>
      first
        | exact Except.noConfusion h
        | (injection h with h; subst h; exact ⟨rfl, rfl⟩)
  · intro now s s' a sg hs e t sgn h
    simp only [step, submitAttestation] at h
    (repeat' split at h) <;>
      first
        | exact Except.noConfusion h
        | (injection h with h; subst h; exact ⟨rfl, rfl⟩)
  · intro now s s' a sgn h
    simp only [step, revokeAttestation] at h
    (repeat' split at h) <;>
      first
        | exact Except.noConfusion h
        | (injection h with h; subst h; exact rfl)
  · intro now s s' pk sgn h
    simp only [step, removeAuthority] at h
    (repeat' split at h) <;>
      first
        | exact Except.noConfusion h
        | (injection h with h; subst h; exact rfl)

/-- Witness for C8 at a concrete state and a concrete four-operation
sequence (register, attest, revoke, remove authority). -/
theorem counters_monotonic_witness :
    (∃ s', runOps wState wOps = .ok s' ∧
      wState.config.totalAgents ≤ s'.config.totalAgents ∧
      wState.config.totalAttestations ≤ s'.config.totalAttestations) ∧
    (∃ s', step 0 wState (.registerAgent "x" 9) = .ok s' ∧
      s'.config.totalAgents = wState.config.totalAgents + 1 ∧
      s'.config.totalAttestations = wState.config.totalAttestations) :=
  ⟨⟨_, rfl, (counters_monotonic).1 wOps wState _ rfl⟩,
   ⟨_, rfl, (counters_monotonic).2.1 0 wState _ "x" 9 rfl⟩⟩

/-- Witness for C4 at a concrete state: adding an economic-stake
attestation to a live set holding only a TEE attestation. -/
theorem trustScore_monotone_witness :
    ∃ s₂ id₁ id₂,
      refreshSignals 5
        { wState with attestations := wAttStake :: wState.attestations } 2 =
        .ok s₂ ∧
      findAgent 2 wState1.agents = some id₁ ∧
      findAgent 2 s₂.agents = some id₂ ∧
      id₁.trustScore ≤ id₂.trustScore ∧ id₂.trustScore ≤ 100 :=
  trustScore_monotone 5 wState wState1 2 wAttStake (by rfl) rfl rfl
    (by decide) (by decide)

/-- C7: the four PDA helpers of `src/pda.ts` derive addresses from exactly
the spec's seed table under the fixed program id — the config PDA from
the constant tag "moltlaunch" alone, the agent PDA from "agent" plus the
wallet key, the authority PDA from "authority" plus the authority key,
and the attestation PDA from "attestation" plus the wallet key plus the
authority key. -/
theorem pda_seed_schedule :
    (∀ H : PdaHash,
      findConfigPda H = H [strBytes "moltlaunch"] MOLTLAUNCH_PROGRAM_ID) ∧
    (∀ (H : PdaHash) (w : Seed),
      findAgentPda H w = H [strBytes "agent", w] MOLTLAUNCH_PROGRAM_ID) ∧
    (∀ (H : PdaHash) (a : Seed),
      findAuthorityPda H a =
        H [strBytes "authority", a] MOLTLAUNCH_PROGRAM_ID) ∧
    (∀ (H : PdaHash) (w a : Seed),
      findAttestationPda H w a =
        H [strBytes "attestation", w, a] MOLTLAUNCH_PROGRAM_ID) ∧
    SEEDS.CONFIG = "moltlaunch" ∧ SEEDS.AGENT = "agent" ∧
    SEEDS.AUTHORITY = "authority" ∧ SEEDS.ATTESTATION = "attestation" :=
  ⟨fun _ => rfl, fun _ _ => rfl, fun _ _ => rfl, fun _ _ _ => rfl,
   rfl, rfl, rfl, rfl⟩

/-- C9: for every outcome of the verification checks, the score returned
by `AgentVerifier.verify` is the sum of the fixed weights of the checks
that passed (apiLiveness 30, apiResponsive 20, githubExists 15,
capabilitiesVerified 25, uniqueIdentity 10), hence lies in [0, 100];
`passed` is true exactly when the score is at least 60, and the
attestation is present exactly when `passed` is true. -/
theorem verify_score_spec (liveness responsive github capOk : Bool)
    (att : String) :
    (AgentVerifier.verify liveness responsive github capOk att).score =
      (if (AgentVerifier.verify liveness responsive github capOk
          att).checks.apiLiveness then 30 else 0) +
      (if (AgentVerifier.verify liveness responsive github capOk
          att).checks.apiResponsive then 20 else 0) +
      (if (AgentVerifier.verify liveness responsive github capOk
          att).checks.githubExists then 15 else 0) +
      (if (AgentVerifier.verify liveness responsive github capOk
          att).checks.capabilitiesVerified then 25 else 0) +
      (if (AgentVerifier.verify liveness responsive github capOk
          att).checks.uniqueIdentity then 10 else 0) ∧
    (AgentVerifier.verify liveness responsive github capOk att).score ≤
      100 ∧
    ((AgentVerifier.verify liveness responsive github capOk att).passed =
        true ↔
      60 ≤ (AgentVerifier.verify liveness responsive github capOk
        att).score) ∧
    ((AgentVerifier.verify liveness responsive github capOk
        att).attestation.isSome = true ↔
      (AgentVerifier.verify liveness responsive github capOk att).passed =
        true) := by
  cases liveness <;> cases responsive <;> cases github <;> cases capOk <;>
    (refine ⟨rfl, ?_, ?_, ?_⟩ <;>
      simp [AgentVerifier.verify, AgentVerifier.assembleChecks,
        AgentVerifier.calculateScore])

/-- C10: `getTier` is total, and on every score in [0, 100] it returns the
unique tier whose `SCORE_TIERS` range contains the score; `isVerified`
holds exactly when the score is at least 60, equivalently exactly when
the tier is excellent or good. -/
theorem tier_consistency (s : Nat) (hs : s ≤ 100) :
    ((SCORE_TIERS (getTier s)).min ≤ s ∧
      s ≤ (SCORE_TIERS (getTier s)).max) ∧
    (∀ t : Tier, (SCORE_TIERS t).min ≤ s ∧ s ≤ (SCORE_TIERS t).max →
      t = getTier s) ∧
    (isVerified s = true ↔ 60 ≤ s) ∧
    (isVerified s = true ↔
      (getTier s = .excellent ∨ getTier s = .good)) := by
  refine ⟨?_, ?_, ?_, ?_⟩
  · unfold getTier
    split_ifs with h80 h60 h40 <;> simp [SCORE_TIERS] <;> omega
  · intro t ht
    cases t <;> simp only [SCORE_TIERS] at ht <;> unfold getTier <;>
      split_ifs <;> first | rfl | (exfalso; omega)
  · simp [isVerified]
  · unfold isVerified getTier
    split_ifs with h80 h60 h40 <;> simp <;> omega

/-- Witness for C10 at the concrete score 85. -/
theorem tier_consistency_witness :
    (85 : Nat) ≤ 100 ∧
    (((SCORE_TIERS (getTier 85)).min ≤ 85 ∧
       85 ≤ (SCORE_TIERS (getTier 85)).max) ∧
     (∀ t : Tier, (SCORE_TIERS t).min ≤ 85 ∧ 85 ≤ (SCORE_TIERS t).max →
       t = getTier 85) ∧
     (isVerified 85 = true ↔ 60 ≤ 85) ∧
     (isVerified 85 = true ↔
       (getTier 85 = .excellent ∨ getTier 85 = .good))) :=
  ⟨by decide, tier_consistency 85 (by decide)⟩

end Molt




